import Mathlib

/-!
Shallow embedding of the Okart backend core: the token issuer
(src/src/services/token.service.js) and the cart service
(add / update / delete / checkout, src/unnamed/part_000).

Modelling choices:
- JS numbers used as money, quantities and epoch seconds become `Int`.
- Mongo documents become Lean structures; product identity (`_id`) is a
  `String` field `pid`.
- The per-user cart store is passed in as `Option Cart` (the result of
  `Cart.findOne {email: user.email}`); persistence writes are modelled by
  returning the updated documents.
- `jwt.sign` is external: the signed token is modelled as the record of
  the payload and the `expiresIn` option the code hands to it.
- Fallible operations return `Except ApiError _`; `ApiError` carries the
  HTTP status and the exact message string from the code.
-/

structure Product where
  pid : String
  cost : Int
deriving Repr, DecidableEq

structure CartItem where
  product : Product
  quantity : Int
deriving Repr, DecidableEq

structure Cart where
  email : String
  cartItems : List CartItem
deriving Repr, DecidableEq

structure User where
  uid : String
  email : String
  walletMoney : Int
  hasSetNonDefaultAddress : Bool
deriving Repr, DecidableEq

structure ApiError where
  status : Nat
  message : String
deriving Repr, DecidableEq

def BAD_REQUEST : Nat := 400

def NOT_FOUND : Nat := 404

/-- `getProductById` (product.service): catalog lookup returning the
product or not-found. -/
def getProductById (catalog : List Product) (productId : String) : Option Product :=
  catalog.find? (fun p => p.pid == productId)

/-- JS `Array.prototype.findIndex`, with `none` standing for `-1`. -/
def findIndex (pred : α → Bool) : List α → Option Nat
  | [] => none
  | x :: xs => if pred x then some 0 else (findIndex pred xs).map (· + 1)

/-- JS `arr.splice(i, 1)`: remove the element at index `i`. -/
def spliceOne : List α → Nat → List α
  | [], _ => []
  | _ :: xs, 0 => xs
  | x :: xs, n + 1 => x :: spliceOne xs n

/-- `cart.cartItems[i].quantity = q`: overwrite the quantity at index `i`. -/
def setQuantityAt : List CartItem → Nat → Int → List CartItem
  | [], _, _ => []
  | item :: rest, 0, q => { item with quantity := q } :: rest
  | item :: rest, n + 1, q => item :: setQuantityAt rest n q

/- ## Token issuer (token.service.js) -/

/-- The content `jwt.sign` receives: payload `{sub, type}` and the
`expiresIn` signing option (seconds). -/
structure SignedToken where
  sub : String
  tokenType : String
  expiresIn : Int
deriving Repr, DecidableEq

/-- `generateToken(userId, expires, type, secret)`. `now` models the single
clock read `Math.floor(Date.now() / 1000)`. If `expires > 1000000000` it is
taken as an absolute epoch-seconds timestamp and `expiresIn = expires - now`;
otherwise it is taken as minutes and `expiresIn = expires * 60`. -/
def generateToken (userId : String) (expires : Int) (tokenType : String)
    (now : Int) : SignedToken :=
  let expiresIn : Int := if expires > 1000000000 then expires - now else expires * 60
  { sub := userId, tokenType := tokenType, expiresIn := expiresIn }

/- ## Cart service (part_000) -/

/-- `addProductToCart(user, productId, quantity)`. `cartDb` is what
`Cart.findOne({email: user.email})` returns; `Cart.create` is modelled as
always succeeding, so the `!createdCart` 500-branch is unreachable here. -/
def addProductToCart (catalog : List Product) (cartDb : Option Cart)
    (user : User) (productId : String) (quantity : Int) : Except ApiError Cart :=
  match getProductById catalog productId with
  | none => .error ⟨BAD_REQUEST, "Product doesn\x27t exist in database"⟩
  | some product =>
    match cartDb with
    | none =>
      .ok { email := user.email, cartItems := [{ product := product, quantity := quantity }] }
    | some cart =>
      match findIndex (fun item => item.product.pid == product.pid) cart.cartItems with
      | some _ =>
        .error ⟨BAD_REQUEST,
          "Product already in cart. Use the cart sidebar to update or remove product from cart"⟩
      | none =>
        .ok { cart with
              cartItems := cart.cartItems ++ [{ product := product, quantity := quantity }] }

/-- `updateProductInCart(user, productId, quantity)`. -/
def updateProductInCart (catalog : List Product) (cartDb : Option Cart)
    (user : User) (productId : String) (quantity : Int) : Except ApiError Cart :=
  match cartDb with
  | none =>
    .error ⟨BAD_REQUEST, "User does not have a cart. Use POST to create cart and add a product"⟩
  | some cart =>
    match getProductById catalog productId with
    | none => .error ⟨BAD_REQUEST, "Product doesn\x27t exist in database"⟩
    | some product =>
      match findIndex (fun item => item.product.pid == product.pid) cart.cartItems with
      | none => .error ⟨BAD_REQUEST, "Product not in cart"⟩
      | some i => .ok { cart with cartItems := setQuantityAt cart.cartItems i quantity }

/-- `deleteProductFromCart(user, productId)`: matches stored items against
`productId` directly; the catalog is never consulted. -/
def deleteProductFromCart (cartDb : Option Cart) (user : User)
    (productId : String) : Except ApiError Cart :=
  match cartDb with
  | none => .error ⟨BAD_REQUEST, "User does not have a cart"⟩
  | some cart =>
    match findIndex (fun item => item.product.pid == productId) cart.cartItems with
    | none => .error ⟨BAD_REQUEST, "Product not in cart"⟩
    | some i => .ok { cart with cartItems := spliceOne cart.cartItems i }

/-- `cart.cartItems.reduce((sum, {product, quantity}) => sum + product.cost * quantity, 0)`. -/
def cartTotal (items : List CartItem) : Int :=
  items.foldl (fun sum item => sum + item.product.cost * item.quantity) 0

/-- `checkout(user)`: on success returns the persisted user (wallet debited)
and cart (items cleared). -/
def checkout (cartDb : Option Cart) (user : User) : Except ApiError (User × Cart) :=
  match cartDb with
  | none => .error ⟨NOT_FOUND, "Cart not found"⟩
  | some cart =>
    if cart.cartItems.length == 0 then
      .error ⟨BAD_REQUEST, "Cart is Empty"⟩
    else if !user.hasSetNonDefaultAddress then
      .error ⟨BAD_REQUEST, "Please set the default address"⟩
    else
      let totalCartValue := cartTotal cart.cartItems
      if totalCartValue > user.walletMoney then
        .error ⟨BAD_REQUEST, "Insuffiecient Balance."⟩
      else
        .ok ({ user with walletMoney := user.walletMoney - totalCartValue },
             { cart with cartItems := [] })

/- ## Concrete fixtures for witnesses and counterexamples -/

def demoUid : String := "u1"

def accessType : String := "access"

def demoEmail : String := "user@example.com"

def p1id : String := "p1"

def p2id : String := "p2"

def missingPid : String := "zzz"

def demoP1 : Product := { pid := p1id, cost := 10 }

def demoP2 : Product := { pid := p2id, cost := 5 }

def demoCart : Cart :=
  { email := demoEmail,
    cartItems := [{ product := demoP1, quantity := 2 }, { product := demoP2, quantity := 1 }] }

def soloCart : Cart :=
  { email := demoEmail, cartItems := [{ product := demoP1, quantity := 2 }] }

def richUser : User :=
  { uid := demoUid, email := demoEmail, walletMoney := 100,
    hasSetNonDefaultAddress := true }

def richUserAfter : User :=
  { uid := demoUid, email := demoEmail, walletMoney := 75,
    hasSetNonDefaultAddress := true }

def demoCartEmpty : Cart := { email := demoEmail, cartItems := [] }

def poorUser : User :=
  { uid := demoUid, email := demoEmail, walletMoney := 20,
    hasSetNonDefaultAddress := true }

/- ## Claims about the token issuer -/

/-- Claim C1: in `generateToken`, an `expirySpec` strictly above 1,000,000,000
yields the signed lifetime `expirySpec - now` (the current Unix seconds),
possibly zero or negative, and an `expirySpec ≤ 1,000,000,000` yields the
signed lifetime `expirySpec * 60`. -/
theorem generateToken_lifetime_dual_mode (userId : String) (expires : Int)
    (tokenType : String) (now : Int) :
    (expires > 1000000000 →
      (generateToken userId expires tokenType now).expiresIn = expires - now) ∧
    (expires ≤ 1000000000 →
      (generateToken userId expires tokenType now).expiresIn = expires * 60) := by
  constructor
  · intro h
    simp [generateToken, h]
  · intro h
    simp [generateToken]
    intro h'
    omega

/-- Witness for C1: both branches evaluated at concrete inputs. -/
theorem generateToken_lifetime_dual_mode_witness :
    (generateToken demoUid 2000000000 accessType 1999999000).expiresIn = 2000000000 - 1999999000 ∧
    (generateToken demoUid 5 accessType 1999999000).expiresIn = 5 * 60 :=
  ⟨(generateToken_lifetime_dual_mode demoUid 2000000000 accessType 1999999000).1 (by decide),
   (generateToken_lifetime_dual_mode demoUid 5 accessType 1999999000).2 (by decide)⟩

/-- Counterexample to C4: an `expirySpec` above the threshold that names a
past instant gives a non-positive signed lifetime, so the expiry is not
strictly later than issuance for every expiry specification. -/
theorem generateToken_nonpositive_lifetime_counterexample :
    ¬ (0 < (generateToken demoUid 1500000000 accessType 1600000000).expiresIn) := by
  decide

/-- Claim C4 (amended): the signed lifetime is strictly positive exactly when
the expiry specification is a future absolute timestamp (`> 1000000000` and
`> now`) or a positive minute count (`≤ 1000000000` and `> 0`); it is not
strictly positive for every value of the expiry specification. -/
theorem generateToken_positive_lifetime_iff (userId : String) (expires : Int)
    (tokenType : String) (now : Int) :
    0 < (generateToken userId expires tokenType now).expiresIn ↔
      ((expires > 1000000000 ∧ now < expires) ∨ (expires ≤ 1000000000 ∧ 0 < expires)) := by
  simp only [generateToken]
  split <;> constructor <;> intro h <;> omega

/- ## Helper lemmas on the list operations -/

theorem findIndex_eq_none_of_forall (pred : α → Bool) (l : List α)
    (h : ∀ x ∈ l, pred x = false) : findIndex pred l = none := by
  induction l with
  | nil => rfl
  | cons x xs ih =>
    simp only [findIndex, h x (List.mem_cons_self x xs),
      ih (fun y hy => h y (List.mem_cons_of_mem x hy))]
    rfl

theorem findIndex_append_first_match (pred : α → Bool) (pre : List α) (x : α)
    (post : List α) (hpre : ∀ y ∈ pre, pred y = false) (hx : pred x = true) :
    findIndex pred (pre ++ x :: post) = some pre.length := by
  induction pre with
  | nil => simp [findIndex, hx]
  | cons a as ih =>
    have h1 := hpre a (List.mem_cons_self a as)
    have h2 := ih (fun y hy => hpre y (List.mem_cons_of_mem a hy))
    simp [findIndex, h1, h2]

theorem filter_eq_nil_of_forall (pred : α → Bool) (l : List α)
    (h : ∀ x ∈ l, pred x = false) : l.filter pred = [] := by
  induction l with
  | nil => rfl
  | cons x xs ih =>
    simp [List.filter_cons, h x (List.mem_cons_self x xs),
      ih (fun y hy => h y (List.mem_cons_of_mem x hy))]

theorem spliceOne_append (pre : List α) (x : α) (post : List α) :
    spliceOne (pre ++ x :: post) pre.length = pre ++ post := by
  induction pre with
  | nil => rfl
  | cons a as ih => simp [spliceOne, ih]

theorem setQuantityAt_append (pre : List CartItem) (item : CartItem)
    (post : List CartItem) (q : Int) :
    setQuantityAt (pre ++ item :: post) pre.length q =
      pre ++ { item with quantity := q } :: post := by
  induction pre with
  | nil => rfl
  | cons a as ih => simp [setQuantityAt, ih]

/- ## Claims about the cart service -/

/-- Claim C5: when `productId` does not resolve in the catalog,
`addProductToCart` fails with the catalog-missing `InvalidRequestError`,
whatever the cart state (absent, present without the product, or present
with it). -/
theorem addProductToCart_missing_product_fails (catalog : List Product)
    (cartDb : Option Cart) (user : User) (productId : String) (quantity : Int)
    (h : getProductById catalog productId = none) :
    addProductToCart catalog cartDb user productId quantity =
      Except.error ⟨BAD_REQUEST, "Product doesn\x27t exist in database"⟩ := by
  simp [addProductToCart, h]

/-- Witness for C5 at a concrete catalog, cart and missing id. -/
theorem addProductToCart_missing_product_fails_witness :
    addProductToCart [demoP1] (some demoCart) richUser missingPid 1 =
      Except.error ⟨BAD_REQUEST, "Product doesn\x27t exist in database"⟩ :=
  addProductToCart_missing_product_fails [demoP1] (some demoCart) richUser missingPid 1
    (by decide)

/-- Claim C6: adding a catalog product to a cart that does not yet hold it
succeeds and leaves exactly one item for that product, with the supplied
quantity; repeating the identical call on the resulting cart fails with the
duplicate-product `InvalidRequestError` and performs no merge. -/
theorem addProductToCart_twice (catalog : List Product) (cartDb : Option Cart)
    (user : User) (productId : String) (quantity : Int) (p : Product)
    (hp : getProductById catalog productId = some p)
    (hfresh : ∀ cart, cartDb = some cart →
      ∀ it ∈ cart.cartItems, (it.product.pid == p.pid) = false) :
    ∃ newCart,
      addProductToCart catalog cartDb user productId quantity = Except.ok newCart ∧
      newCart.cartItems.filter (fun it => it.product.pid == p.pid) =
        [{ product := p, quantity := quantity }] ∧
      addProductToCart catalog (some newCart) user productId quantity =
        Except.error ⟨BAD_REQUEST,
          "Product already in cart. Use the cart sidebar to update or remove product from cart"⟩ := by
  cases cartDb with
  | none =>
    refine ⟨⟨user.email, [{ product := p, quantity := quantity }]⟩, ?_, ?_, ?_⟩
    · simp [addProductToCart, hp]
    · simp
    · simp [addProductToCart, hp, findIndex]
  | some cart =>
    have hnone := findIndex_eq_none_of_forall
      (fun it => it.product.pid == p.pid) cart.cartItems (hfresh cart rfl)
    refine ⟨{ cart with
              cartItems := cart.cartItems ++ [{ product := p, quantity := quantity }] },
      ?_, ?_, ?_⟩
    · simp [addProductToCart, hp, hnone]
    · rw [List.filter_append,
        filter_eq_nil_of_forall (fun it => it.product.pid == p.pid) cart.cartItems
          (hfresh cart rfl)]
      simp
    · have hidx := findIndex_append_first_match (fun it => it.product.pid == p.pid)
        cart.cartItems { product := p, quantity := quantity } [] (hfresh cart rfl) (by simp)
      simp [addProductToCart, hp, hidx]

/-- Witness for C6: adding `demoP1` twice starting from no cart. -/
theorem addProductToCart_twice_witness :
    ∃ newCart,
      addProductToCart [demoP1] none richUser p1id 2 = Except.ok newCart ∧
      newCart.cartItems.filter (fun it => it.product.pid == demoP1.pid) =
        [{ product := demoP1, quantity := 2 }] ∧
      addProductToCart [demoP1] (some newCart) richUser p1id 2 =
        Except.error ⟨BAD_REQUEST,
          "Product already in cart. Use the cart sidebar to update or remove product from cart"⟩ :=
  addProductToCart_twice [demoP1] none richUser p1id 2 demoP1 (by decide)
    (fun cart h => Option.noConfusion h)

/-- Claim C7: updating a catalog product that is absent from an existing cart
fails with the "Product not in cart" `InvalidRequestError`; the error path
performs no write, so the stored cart is unchanged. -/
theorem updateProductInCart_absent_product_fails (catalog : List Product)
    (cart : Cart) (user : User) (productId : String) (quantity : Int) (p : Product)
    (hp : getProductById catalog productId = some p)
    (habsent : ∀ it ∈ cart.cartItems, (it.product.pid == p.pid) = false) :
    updateProductInCart catalog (some cart) user productId quantity =
      Except.error ⟨BAD_REQUEST, "Product not in cart"⟩ := by
  have hnone := findIndex_eq_none_of_forall
    (fun it => it.product.pid == p.pid) cart.cartItems habsent
  simp [updateProductInCart, hp, hnone]

/-- Witness for C7: `demoP2` is in the catalog but not in `soloCart`. -/
theorem updateProductInCart_absent_product_fails_witness :
    updateProductInCart [demoP1, demoP2] (some soloCart) richUser p2id 3 =
      Except.error ⟨BAD_REQUEST, "Product not in cart"⟩ :=
  updateProductInCart_absent_product_fails [demoP1, demoP2] soloCart richUser p2id 3 demoP2
    (by decide) (by decide)

/-- Claim C9: a successful `updateProductInCart` overwrites only the matched
item's quantity; every other item, the item count and order, and the cart's
owning email are unchanged, and the matched item keeps its product
reference. -/
theorem updateProductInCart_frame (catalog : List Product) (user : User)
    (email : String) (pre post : List CartItem) (item : CartItem)
    (productId : String) (quantity : Int) (p : Product)
    (hp : getProductById catalog productId = some p)
    (hpre : ∀ it ∈ pre, (it.product.pid == p.pid) = false)
    (hitem : (item.product.pid == p.pid) = true) :
    updateProductInCart catalog (some ⟨email, pre ++ item :: post⟩) user productId quantity =
      Except.ok ⟨email, pre ++ { item with quantity := quantity } :: post⟩ := by
  have hidx := findIndex_append_first_match
    (fun it => it.product.pid == p.pid) pre item post hpre hitem
  simp [updateProductInCart, hp, hidx, setQuantityAt_append]

/-- Witness for C9: bumping `demoP2`'s quantity in `demoCart` to 7 leaves the
`demoP1` item, the order and the email untouched. -/
theorem updateProductInCart_frame_witness :
    updateProductInCart [demoP1, demoP2] (some demoCart) richUser p2id 7 =
      Except.ok ⟨demoEmail,
        [{ product := demoP1, quantity := 2 }, { product := demoP2, quantity := 7 }]⟩ :=
  updateProductInCart_frame [demoP1, demoP2] richUser demoEmail
    [{ product := demoP1, quantity := 2 }] [] { product := demoP2, quantity := 1 }
    p2id 7 demoP2 (by decide) (by decide) (by decide)

/-- Claim C8: deleting the only item of a one-item cart succeeds and leaves
the cart present with an empty item sequence; `deleteProductFromCart` never
deletes the cart aggregate, it only rewrites `cartItems`. -/
theorem deleteProductFromCart_last_item (user : User) (email : String)
    (item : CartItem) (productId : String)
    (hmatch : (item.product.pid == productId) = true) :
    deleteProductFromCart (some ⟨email, [item]⟩) user productId =
      Except.ok ⟨email, []⟩ := by
  simp [deleteProductFromCart, findIndex, hmatch, spliceOne]

/-- Witness for C8: deleting `demoP1` from the one-item `soloCart`. -/
theorem deleteProductFromCart_last_item_witness :
    deleteProductFromCart (some soloCart) richUser p1id = Except.ok ⟨demoEmail, []⟩ :=
  deleteProductFromCart_last_item richUser demoEmail { product := demoP1, quantity := 2 }
    p1id (by decide)

/-- Claim C10: `deleteProductFromCart` never consults the catalog: even for a
`productId` with no catalog entry, it removes exactly the first stored item
whose product identity matches, keeps the remaining items in order, and
returns the updated cart. -/
theorem deleteProductFromCart_ignores_catalog (catalog : List Product)
    (user : User) (email : String) (pre post : List CartItem) (item : CartItem)
    (productId : String)
    (hmissing : getProductById catalog productId = none)
    (hpre : ∀ it ∈ pre, (it.product.pid == productId) = false)
    (hitem : (item.product.pid == productId) = true) :
    deleteProductFromCart (some ⟨email, pre ++ item :: post⟩) user productId =
      Except.ok ⟨email, pre ++ post⟩ := by
  have hidx := findIndex_append_first_match
    (fun it => it.product.pid == productId) pre item post hpre hitem
  simp [deleteProductFromCart, hidx, spliceOne_append]

/-- Witness for C10: deleting `demoP1` from `demoCart` under a catalog that
no longer lists it. -/
theorem deleteProductFromCart_ignores_catalog_witness :
    deleteProductFromCart (some demoCart) richUser p1id =
      Except.ok ⟨demoEmail, [{ product := demoP2, quantity := 1 }]⟩ :=
  deleteProductFromCart_ignores_catalog [demoP2] richUser demoEmail
    [] [{ product := demoP2, quantity := 1 }] { product := demoP1, quantity := 2 }
    p1id (by decide) (by decide) (by decide)

/-- Counterexample to C2 as stated: with the concrete scenario (cart total 25,
wallet 20, non-default address set) the claim's preconditions hold and
checkout does fail on the balance check, but the error message the code
raises is "Insuffiecient Balance.", not the claimed "Insufficient balance". -/
theorem checkout_insufficient_message_counterexample :
    demoCart.cartItems ≠ [] ∧
    poorUser.hasSetNonDefaultAddress = true ∧
    poorUser.walletMoney < cartTotal demoCart.cartItems ∧
    checkout (some demoCart) poorUser =
      Except.error ⟨BAD_REQUEST, "Insuffiecient Balance."⟩ ∧
    ("Insuffiecient Balance." : String) ≠ "Insufficient balance" :=
  ⟨by decide, rfl, by decide, rfl, by decide⟩

/-- Claim C2 (amended): for a non-empty cart and a user with a non-default
address, a cart total above the wallet balance makes checkout fail with the
`InvalidRequestError` message "Insuffiecient Balance." (the code's literal
message), leaving the stored user and cart unwritten; a total at most the
balance passes this check and checkout succeeds. -/
theorem checkout_insufficient_balance (cart : Cart) (user : User)
    (hne : cart.cartItems.length ≠ 0)
    (haddr : user.hasSetNonDefaultAddress = true) :
    (user.walletMoney < cartTotal cart.cartItems →
      checkout (some cart) user =
        Except.error ⟨BAD_REQUEST, "Insuffiecient Balance."⟩) ∧
    (cartTotal cart.cartItems ≤ user.walletMoney →
      checkout (some cart) user =
        Except.ok ({ user with walletMoney := user.walletMoney - cartTotal cart.cartItems },
                   { cart with cartItems := [] })) := by
  constructor
  · intro h
    simp [checkout, hne, haddr, h]
  · intro h
    have hnotgt : ¬ (cartTotal cart.cartItems > user.walletMoney) := not_lt.mpr h
    simp [checkout, hne, haddr, hnotgt]

/-- Witness for C2: the concrete insufficient-balance scenario (total 25,
wallet 20). -/
theorem checkout_insufficient_balance_witness :
    checkout (some demoCart) poorUser =
      Except.error ⟨BAD_REQUEST, "Insuffiecient Balance."⟩ :=
  (checkout_insufficient_balance demoCart poorUser (by decide) rfl).1 (by decide)

/-- Claim C3: with an existing non-empty cart, a non-default address, and a
wallet balance at least the cart total, checkout succeeds, debits the wallet
by exactly the pre-checkout total, and empties the cart's item sequence. -/
theorem checkout_success_debits_and_clears (cart : Cart) (user : User)
    (hne : cart.cartItems.length ≠ 0)
    (haddr : user.hasSetNonDefaultAddress = true)
    (hbal : cartTotal cart.cartItems ≤ user.walletMoney) :
    checkout (some cart) user =
      Except.ok ({ user with walletMoney := user.walletMoney - cartTotal cart.cartItems },
                 { cart with cartItems := [] }) := by
  have hnotgt : ¬ (cartTotal cart.cartItems > user.walletMoney) := not_lt.mpr hbal
  simp [checkout, hne, haddr, hnotgt]

/-- Witness for C3: the concrete scenario cart [(cost 10, qty 2), (cost 5,
qty 1)] with wallet 100 ends with wallet 75 and an empty item list. -/
theorem checkout_success_debits_and_clears_witness :
    checkout (some demoCart) richUser = Except.ok (richUserAfter, demoCartEmpty) ∧
    richUserAfter.walletMoney = 75 ∧ demoCartEmpty.cartItems = [] :=
  ⟨(checkout_success_debits_and_clears demoCart richUser (by decide) rfl (by decide)).trans
      (by rfl),
   rfl, rfl⟩
